import Mathlib

/-!
Novatek NT36860 MIPI-DSI panel driver.

A shallow embedding of `drivers/gpu/drm/panel/panel-novatek-nt36860.c`.

* Memory.  The file-scope objects of the driver (`jdi_lpm035m407b_init`,
  `jdi_lpm035m407b_mode`, `jdi_lpm035m407b_desc`, the function-static scratch
  union `temp`) and the two `devm_kzalloc` objects built by the debug path of
  `nt36860_probe` are the fields of `Mem`.  Pointers are small enumerations
  naming the object pointed to, so that a store through a copied pointer lands
  in the object the original pointer names.
* Hardware.  Calls on the regulators, the reset GPIO, the delays and the DSI
  transport are recorded, in program order, in a log of `Event`s.  Their
  return codes are supplied by a `World`.
* Integers.  `int`, `size_t` and `u32` values are `Int` or `Nat`; bytes are
  `Nat`s below 256; narrowing casts are explicit remainders.
-/

namespace NT36860

/-! ## Data model -/

/-- Target of a `const u8 *` held in `struct nt36860_dcs_instr`. -/
inductive DataPtr
  | null
  | lit (bytes : List Nat)
  | tu8 (off : Nat)
  deriving DecidableEq, Repr

/-- Embedding of `struct nt36860_dcs_instr`. -/
structure nt36860_dcs_instr where
  data : DataPtr
  len : Nat
  deriving DecidableEq, Repr

/-- Embedding of the initialiser `NT36860_DCS_INSTR(...)`: `data` is the
compound literal, `len` its `ARRAY_SIZE`. -/
def NT36860_DCS_INSTR (bytes : List Nat) : nt36860_dcs_instr :=
  { data := .lit bytes, len := bytes.length }

/-- Embedding of the fields of `struct drm_display_mode` the driver touches. -/
structure drm_display_mode where
  clock : Int
  hdisplay : Nat
  hsync_start : Nat
  hsync_end : Nat
  htotal : Nat
  vdisplay : Nat
  vsync_start : Nat
  vsync_end : Nat
  vtotal : Nat
  width_mm : Nat
  height_mm : Nat
  flags : Nat
  deriving DecidableEq, Repr

/-- Target of a `struct drm_display_mode *`: the driver has one mode object. -/
inductive ModePtr
  | null
  | jdi_lpm035m407b_mode
  deriving DecidableEq, Repr

/-- Target of a `struct nt36860_dcs_instr *`: the static table, or the array
obtained from `devm_kzalloc` in `nt36860_probe`. -/
inductive InitPtr
  | null
  | jdi_lpm035m407b_init
  | kzalloc
  deriving DecidableEq, Repr

/-- Embedding of `struct nt36860_desc`. -/
structure nt36860_desc where
  mode : ModePtr
  init : InitPtr
  init_len : Nat
  flags : Nat
  orientation : Int
  deriving DecidableEq, Repr

/-- Target of a `const struct nt36860_desc *`: the static descriptor, or the
copy obtained from `devm_kzalloc` in `nt36860_probe`. -/
inductive DescPtr
  | jdi_lpm035m407b_desc
  | debug
  deriving DecidableEq, Repr

/-- Embedding of `struct nt36860`, restricted to what the panel callbacks
read: the descriptor pointer and whether `vddi` is non-NULL. -/
structure nt36860 where
  desc : DescPtr
  vddi : Bool
  deriving DecidableEq, Repr

/-- The objects the driver reads and writes.  `debug` and `kzalloc_init` are
the two `devm_kzalloc` objects of the debug path (all zero until the probe
fills them); `tu8` is the byte view of the static union `temp`. -/
structure Mem where
  jdi_lpm035m407b_init : List nt36860_dcs_instr
  jdi_lpm035m407b_mode : drm_display_mode
  jdi_lpm035m407b_desc : nt36860_desc
  tu8 : List Nat
  debug : nt36860_desc
  kzalloc_init : List nt36860_dcs_instr
  deriving DecidableEq, Repr

/-! ## Static objects -/

/-- Initial value of `jdi_lpm035m407b_init[]`. -/
def jdi_lpm035m407b_init : List nt36860_dcs_instr :=
  [ NT36860_DCS_INSTR [0xFF, 0x10],
    NT36860_DCS_INSTR [0xFB, 0x01],
    NT36860_DCS_INSTR [0x2A, 0x00, 0x00, 0x05, 0x9F],
    NT36860_DCS_INSTR [0x2B, 0x00, 0x00, 0x06, 0x3F],
    NT36860_DCS_INSTR [0x35, 0x00],
    NT36860_DCS_INSTR [0xBA, 0x07],
    NT36860_DCS_INSTR [0xBB, 0x13],
    NT36860_DCS_INSTR [0xE5, 0x00],
    NT36860_DCS_INSTR [0xFF, 0x26],
    NT36860_DCS_INSTR [0xFB, 0x01],
    NT36860_DCS_INSTR [0x02, 0xC0],
    NT36860_DCS_INSTR [0x03, 0x00],
    NT36860_DCS_INSTR [0xFF, 0x25],
    NT36860_DCS_INSTR [0xFB, 0x01],
    NT36860_DCS_INSTR [0x62, 0x60],
    NT36860_DCS_INSTR [0x65, 0x00],
    NT36860_DCS_INSTR [0x66, 0x07],
    NT36860_DCS_INSTR [0x67, 0x56],
    NT36860_DCS_INSTR [0xFF, 0xD0],
    NT36860_DCS_INSTR [0xFB, 0x01],
    NT36860_DCS_INSTR [0x05, 0x88],
    NT36860_DCS_INSTR [0xFF, 0x10],
    NT36860_DCS_INSTR [0xFB, 0x01],
    NT36860_DCS_INSTR [0xC0, 0x80],
    NT36860_DCS_INSTR [0xBE, 0x01, 0x90, 0x0F, 0x39] ]

/-- Initial value of `jdi_lpm035m407b_mode`. -/
def jdi_lpm035m407b_mode : drm_display_mode :=
  { clock := 140070
    hdisplay := 1440
    hsync_start := 1440 + 30
    hsync_end := 1440 + 30 + 4
    htotal := 1440 + 30 + 4 + 30
    vdisplay := 1600
    vsync_start := 1600 + 30
    vsync_end := 1600 + 30 + 8
    vtotal := 1600 + 30 + 8 + 30
    width_mm := 60
    height_mm := 66
    flags := 0 }

/-- Value of `MIPI_DSI_MODE_VIDEO` (`BIT(0)` in `drm_mipi_dsi.h`). -/
def MIPI_DSI_MODE_VIDEO : Nat := 1

/-- Value of `MIPI_DSI_CLOCK_NON_CONTINUOUS` (`BIT(10)` in `drm_mipi_dsi.h`). -/
def MIPI_DSI_CLOCK_NON_CONTINUOUS : Nat := 1024

/-- Value of `MIPI_DSI_MODE_LPM` (`BIT(11)` in `drm_mipi_dsi.h`). -/
def MIPI_DSI_MODE_LPM : Nat := 2048

/-- Value of `DRM_MODE_PANEL_ORIENTATION_NORMAL`. -/
def DRM_MODE_PANEL_ORIENTATION_NORMAL : Int := 0

/-- Initial value of `jdi_lpm035m407b_desc`. -/
def jdi_lpm035m407b_desc : nt36860_desc :=
  { init := .jdi_lpm035m407b_init
    init_len := jdi_lpm035m407b_init.length
    mode := .jdi_lpm035m407b_mode
    flags := MIPI_DSI_MODE_VIDEO ||| MIPI_DSI_MODE_LPM ||| MIPI_DSI_CLOCK_NON_CONTINUOUS
    orientation := DRM_MODE_PANEL_ORIENTATION_NORMAL }

/-- An all-zero `struct nt36860_dcs_instr`, as left by `devm_kzalloc`. -/
def zero_instr : nt36860_dcs_instr := { data := .null, len := 0 }

/-- An all-zero `struct nt36860_desc`, as left by `devm_kzalloc`. -/
def zero_desc : nt36860_desc :=
  { mode := .null, init := .null, init_len := 0, flags := 0, orientation := 0 }

/-- Memory at module load: the statics hold their initialisers, `temp` is
zero-filled static storage (1000 bytes), nothing is allocated yet. -/
def boot : Mem :=
  { jdi_lpm035m407b_init := jdi_lpm035m407b_init
    jdi_lpm035m407b_mode := jdi_lpm035m407b_mode
    jdi_lpm035m407b_desc := jdi_lpm035m407b_desc
    tu8 := List.replicate 1000 0
    debug := zero_desc
    kzalloc_init := [] }

/-! ## Memory access -/

/-- Dereference of a descriptor pointer. -/
def Mem.desc (m : Mem) : DescPtr → nt36860_desc
  | .jdi_lpm035m407b_desc => m.jdi_lpm035m407b_desc
  | .debug => m.debug

/-- The array an instruction-table pointer points to. -/
def Mem.table (m : Mem) : InitPtr → List nt36860_dcs_instr
  | .null => []
  | .jdi_lpm035m407b_init => m.jdi_lpm035m407b_init
  | .kzalloc => m.kzalloc_init

/-- The `len` bytes `data[0] .. data[len-1]`. -/
def Mem.bytes (m : Mem) : DataPtr → Nat → List Nat
  | .null, _ => []
  | .lit bs, len => bs.take len
  | .tu8 off, len => (m.tu8.drop off).take len

/-- Store through a mode pointer: `p->field = ...`. -/
def Mem.store_mode (m : Mem) (p : ModePtr) (f : drm_display_mode → drm_display_mode) : Mem :=
  match p with
  | .null => m
  | .jdi_lpm035m407b_mode => { m with jdi_lpm035m407b_mode := f m.jdi_lpm035m407b_mode }

/-- Store into element `i` of the array `p` points to: `p[i].field = ...`.
The result is `none` when `i` is not an index of that array. -/
def Mem.store_init (m : Mem) (p : InitPtr) (i : Nat)
    (f : nt36860_dcs_instr → nt36860_dcs_instr) : Option Mem :=
  match p with
  | .null => none
  | .jdi_lpm035m407b_init =>
    if i < m.jdi_lpm035m407b_init.length then
      some { m with jdi_lpm035m407b_init :=
        m.jdi_lpm035m407b_init.set i (f (m.jdi_lpm035m407b_init.getD i zero_instr)) }
    else none
  | .kzalloc =>
    if i < m.kzalloc_init.length then
      some { m with kzalloc_init := m.kzalloc_init.set i (f (m.kzalloc_init.getD i zero_instr)) }
    else none

/-- Overwrite the start of a buffer with `bytes`, leaving the rest as it was. -/
def store_bytes (buf bytes : List Nat) : List Nat :=
  bytes ++ buf.drop bytes.length

/-- Byte image of a `u32` cell (little-endian, as on the ARM targets). -/
def le32 (v : Nat) : List Nat :=
  [v % 256, v / 256 % 256, v / 65536 % 256, v / 16777216 % 256]

/-- Read of `temp.tu32[k]` through the byte view of the union. -/
def tu32 (tu8 : List Nat) (k : Nat) : Nat :=
  tu8.getD (4 * k) 0 + 256 * tu8.getD (4 * k + 1) 0
    + 65536 * tu8.getD (4 * k + 2) 0 + 16777216 * tu8.getD (4 * k + 3) 0

/-- Cast `(int)` of a `u32`. -/
def int_of_u32 (v : Nat) : Int :=
  if v % 4294967296 < 2147483648 then (v % 4294967296 : Nat) else (v % 4294967296 : Nat) - 4294967296

/-- Cast `(u16)` of a `u32`. -/
def u16_of_u32 (v : Nat) : Nat := v % 65536

/-! ## Configuration source -/

/-- The device-tree node of the panel: each property is absent (`none`) or
holds its cells (`u32` for the first three, bytes for `on-cmds`). -/
structure device_node where
  debug_on : Bool
  panel_orient : Option (List Nat)
  video_flags : Option (List Nat)
  panel_mode : Option (List Nat)
  on_cmds : Option (List Nat)
  deriving DecidableEq, Repr

/-- Value of `EINVAL`. -/
def EINVAL : Int := 22
/-- Value of `ENOMEM`. -/
def ENOMEM : Int := 12
/-- Value of `EOVERFLOW`. -/
def EOVERFLOW : Int := 75
/-- Value of `ETIMEDOUT`. -/
def ETIMEDOUT : Int := 110

/-- Modelled from the spec: the accessor `of_property_read_u32_array` of the
configuration source is not part of the driver file.  A field is independently
optional: the read fails (negative return, output untouched) when the property
is absent or shorter than `sz` cells, and otherwise stores its first `sz` cells
at the start of the output buffer and returns 0. -/
def of_property_read_u32_array (prop : Option (List Nat)) (out : List Nat) (sz : Nat) :
    Int × List Nat :=
  match prop with
  | none => (-EINVAL, out)
  | some cells =>
    if cells.length < sz then (-EOVERFLOW, out)
    else (0, store_bytes out ((cells.take sz).flatMap le32))

/-- Modelled from the spec: `of_property_read_u32` is the one-cell case of
`of_property_read_u32_array`. -/
def of_property_read_u32 (prop : Option (List Nat)) (out : List Nat) : Int × List Nat :=
  of_property_read_u32_array prop out 1

/-- Modelled from the spec: the accessor `of_property_read_variable_u8_array`
of the configuration source is not part of the driver file.  The read fails
(negative return, output untouched) when the property is absent or its length
is outside `sz_min .. sz_max`; otherwise it stores the bytes at the start of
the output buffer and returns their number. -/
def of_property_read_variable_u8_array (prop : Option (List Nat)) (out : List Nat)
    (sz_min sz_max : Nat) : Int × List Nat :=
  match prop with
  | none => (-EINVAL, out)
  | some bytes =>
    if bytes.length < sz_min ∨ sz_max < bytes.length then (-EOVERFLOW, out)
    else ((bytes.length : Int), store_bytes out bytes)

/-- Outcome of the three `devm_kzalloc` calls of `nt36860_probe`
(`true`: a non-NULL pointer). -/
structure Kzalloc where
  ctx : Bool
  debug : Bool
  init : Bool
  deriving DecidableEq, Repr

/-! ## `nt36860_probe`: descriptor selection and the debug override -/

/-- First loop over `on-cmds` ("Count them first"): returns the final
`(iter, count)`.  The first argument bounds the number of iterations; `ret`
iterations always suffice because `iter` grows by at least one each time. -/
def count_loop (tu8 : List Nat) (ret : Nat) : Nat → Nat → Nat → Nat × Nat
  | 0, iter, count => (iter, count)
  | fuel + 1, iter, count =>
    if iter < ret then
      count_loop tu8 ret fuel (iter + (tu8.getD iter 0 + 1)) (count + 1)
    else (iter, count)

/-- Second loop over `on-cmds` ("Update"): stores `len` and `data` of entry
`count` of the table `debug->init` points to, then advances.  The result is
`none` when a store falls outside that table. -/
def update_loop (ret : Nat) : Nat → Nat → Nat → Mem → Option Mem
  | 0, _, _, m => some m
  | fuel + 1, iter, count, m =>
    if iter < ret then
      match m.store_init m.debug.init count (fun e => { e with len := m.tu8.getD iter 0 }) with
      | none => none
      | some m1 =>
        match m1.store_init m1.debug.init count (fun e => { e with data := .tu8 (iter + 1) }) with
        | none => none
        | some m2 => update_loop ret fuel (iter + (m2.tu8.getD iter 0 + 1)) (count + 1) m2
    else some m

/-- How the modelled part of `nt36860_probe` ends. -/
inductive Probe
  | enomem (m : Mem)
  | overrun (m : Mem)
  | attached (ctx_desc : DescPtr) (m : Mem)
  deriving DecidableEq, Repr

/-- The "Orientation" block. -/
def probe_orient (np : device_node) (m : Mem) : Mem :=
  let r := of_property_read_u32 np.panel_orient m.tu8
  let m := { m with tu8 := r.2 }
  if r.1 ≠ 0 then m
  else { m with debug := { m.debug with orientation := int_of_u32 (tu32 m.tu8 0) } }

/-- The "Video flags" block. -/
def probe_flags (np : device_node) (m : Mem) : Mem :=
  let r := of_property_read_u32 np.video_flags m.tu8
  let m := { m with tu8 := r.2 }
  if r.1 ≠ 0 then m
  else { m with debug := { m.debug with flags := tu32 m.tu8 0 } }

/-- The "Panel mode" block: twelve stores through `debug->mode`. -/
def probe_mode (np : device_node) (m : Mem) : Mem :=
  let r := of_property_read_u32_array np.panel_mode m.tu8 12
  let m := { m with tu8 := r.2 }
  if r.1 ≠ 0 then m
  else
    let m := m.store_mode m.debug.mode (fun d => { d with clock := int_of_u32 (tu32 m.tu8 0) })
    let m := m.store_mode m.debug.mode (fun d => { d with hdisplay := u16_of_u32 (tu32 m.tu8 1) })
    let m := m.store_mode m.debug.mode (fun d => { d with hsync_start := u16_of_u32 (tu32 m.tu8 2) })
    let m := m.store_mode m.debug.mode (fun d => { d with hsync_end := u16_of_u32 (tu32 m.tu8 3) })
    let m := m.store_mode m.debug.mode (fun d => { d with htotal := u16_of_u32 (tu32 m.tu8 4) })
    let m := m.store_mode m.debug.mode (fun d => { d with vdisplay := u16_of_u32 (tu32 m.tu8 5) })
    let m := m.store_mode m.debug.mode (fun d => { d with vsync_start := u16_of_u32 (tu32 m.tu8 6) })
    let m := m.store_mode m.debug.mode (fun d => { d with vsync_end := u16_of_u32 (tu32 m.tu8 7) })
    let m := m.store_mode m.debug.mode (fun d => { d with vtotal := u16_of_u32 (tu32 m.tu8 8) })
    let m := m.store_mode m.debug.mode (fun d => { d with width_mm := u16_of_u32 (tu32 m.tu8 9) })
    let m := m.store_mode m.debug.mode (fun d => { d with height_mm := u16_of_u32 (tu32 m.tu8 10) })
    m.store_mode m.debug.mode (fun d => { d with flags := tu32 m.tu8 11 % 4294967296 })

/-- Result of the "On commands" block. -/
inductive OnCmds
  | enomem (m : Mem)
  | overrun (m : Mem)
  | done (m : Mem)
  deriving DecidableEq, Repr

/-- The second "Update" block of the on-commands path: the update loop over
the `ret` bytes read. -/
def probe_update (ret : Nat) (m : Mem) : OnCmds :=
  match update_loop ret ret 0 0 m with
  | none => .overrun m
  | some m => .done m

/-- The "On commands" block: read, count, sanity check with allocation, and
the update loop, which follows the sanity `if`/`else` and runs on both of its
branches. -/
def probe_on_cmds (np : device_node) (k : Kzalloc) (m : Mem) : OnCmds :=
  let r := of_property_read_variable_u8_array np.on_cmds m.tu8 3 1000
  let m := { m with tu8 := r.2 }
  if r.1 < 0 then .done m
  else
    let ret := r.1.toNat
    let c := count_loop m.tu8 ret ret 0 0
    let iter := c.1
    let count := c.2
    if iter ≠ ret then probe_update ret m
    else
      let m := { m with debug := { m.debug with init_len := count } }
      if k.init then
        let m := { m with debug := { m.debug with init := .kzalloc }
                          kzalloc_init := List.replicate count zero_instr }
        probe_update ret m
      else .enomem { m with debug := { m.debug with init := .null } }

/-- The start of the debug block: `memcpy(debug, ctx->desc, sizeof(...))`,
then the "Orientation", "Video flags" and "Panel mode" blocks in turn. -/
def probe_fields (np : device_node) (ctx_desc : DescPtr) (m : Mem) : Mem :=
  let m := { m with debug := m.desc ctx_desc }
  let m := probe_orient np m
  let m := probe_flags np m
  probe_mode np m

/-- Embedding of `nt36860_probe` from its entry to the assignment
`ctx->desc = debug` that closes the debug block.  `enomem` is the return of
`-ENOMEM`, `overrun` a store past the end of an instruction table (outside the
C semantics), `attached` reaching the regulator lookups with the given
`ctx->desc`. -/
def nt36860_probe (np : device_node) (k : Kzalloc) (m : Mem) : Probe :=
  if !k.ctx then .enomem m
  else
    let ctx_desc := DescPtr.jdi_lpm035m407b_desc
    if np.debug_on then
      if !k.debug then .enomem m
      else
        let m := probe_fields np ctx_desc m
        match probe_on_cmds np k m with
        | .enomem m => .enomem m
        | .overrun m => .overrun m
        | .done m => .attached .debug m
    else .attached ctx_desc m

/-- Memory left by the modelled part of the probe. -/
def Probe.mem : Probe → Mem
  | .enomem m => m
  | .overrun m => m
  | .attached _ m => m

/-- The instruction sequence of a session: the first `init_len` entries of
the table its descriptor points to. -/
def Mem.instrs (m : Mem) (p : DescPtr) : List nt36860_dcs_instr :=
  (m.table (m.desc p).init).take (m.desc p).init_len

/-- Writing an instruction back as its length byte followed by its `len` data
bytes. -/
def encode_instr (m : Mem) (e : nt36860_dcs_instr) : List Nat :=
  e.len :: m.bytes e.data e.len

/-- Writing a sequence of instructions back, in order. -/
def encode (m : Mem) (es : List nt36860_dcs_instr) : List Nat :=
  es.flatMap (encode_instr m)

/-- A length-prefixed stream built from payloads: each frame is one length
byte followed by exactly that many bytes. -/
def frames_stream (frames : List (List Nat)) : List Nat :=
  frames.flatMap (fun p => p.length :: p)

/-! ## Hardware calls -/

/-- The three supplies of the panel. -/
inductive Rail
  | vddi
  | avdd
  | avee
  deriving DecidableEq, Repr

/-- One call on a collaborator, as recorded in the log.  `gpiod_set_value_cansleep`
is always on `ctx->reset`; the DSI calls are always on `ctx->dsi`;
`mipi_dsi_dcs_write_buffer` records the `len` bytes at `data` and `len`. -/
inductive Event
  | gpiod_set_value_cansleep (value : Nat)
  | regulator_enable (r : Rail)
  | regulator_disable (r : Rail)
  | msleep (msecs : Nat)
  | usleep_range (lo hi : Nat)
  | mipi_dsi_dcs_write_buffer (data : List Nat) (len : Nat)
  | mipi_dsi_dcs_exit_sleep_mode
  | mipi_dsi_dcs_set_display_on
  | mipi_dsi_dcs_set_display_off
  | mipi_dsi_dcs_set_tear_off
  | mipi_dsi_dcs_enter_sleep_mode
  deriving DecidableEq, Repr

/-- Whether an event is a transfer over the DSI transport. -/
def Event.is_dsi : Event → Bool
  | .mipi_dsi_dcs_write_buffer _ _ => true
  | .mipi_dsi_dcs_exit_sleep_mode => true
  | .mipi_dsi_dcs_set_display_on => true
  | .mipi_dsi_dcs_set_display_off => true
  | .mipi_dsi_dcs_set_tear_off => true
  | .mipi_dsi_dcs_enter_sleep_mode => true
  | _ => false

/-- The DSI transfers of a log, in order. -/
def dsi_events (log : List Event) : List Event := log.filter Event.is_dsi

/-- The rails enabled in a log, in call order. -/
def rail_enables (log : List Event) : List Rail :=
  log.filterMap (fun e => match e with | .regulator_enable r => some r | _ => none)

/-- The rails disabled in a log, in call order. -/
def rail_disables (log : List Event) : List Rail :=
  log.filterMap (fun e => match e with | .regulator_disable r => some r | _ => none)

/-- The values written to the reset line in a log, in call order. -/
def reset_writes (log : List Event) : List Nat :=
  log.filterMap (fun e => match e with | .gpiod_set_value_cansleep v => some v | _ => none)

/-- Behaviour of the collaborators: the return code of enabling and of
disabling each rail, and the return code of each DSI transfer, which may
depend on how many transfers went before and on what is sent. -/
structure World where
  regulator_enable : Rail → Int
  regulator_disable : Rail → Int
  dsi : Nat → Event → Int

/-- Call `gpiod_set_value_cansleep(ctx->reset, value)`. -/
def gpiod_set_value_cansleep (value : Nat) (log : List Event) : List Event :=
  log ++ [.gpiod_set_value_cansleep value]

/-- Call `msleep(msecs)`. -/
def msleep (msecs : Nat) (log : List Event) : List Event :=
  log ++ [.msleep msecs]

/-- Call `usleep_range(lo, hi)`. -/
def usleep_range (lo hi : Nat) (log : List Event) : List Event :=
  log ++ [.usleep_range lo hi]

/-- Call `regulator_enable(r)`: the return code and the extended log. -/
def regulator_enable (w : World) (r : Rail) (log : List Event) : Int × List Event :=
  (w.regulator_enable r, log ++ [.regulator_enable r])

/-- Call `regulator_disable(r)`: the return code and the extended log. -/
def regulator_disable (w : World) (r : Rail) (log : List Event) : Int × List Event :=
  (w.regulator_disable r, log ++ [.regulator_disable r])

/-- Issue the DSI transfer `e`: the return code and the extended log. -/
def dsi_call (w : World) (e : Event) (log : List Event) : Int × List Event :=
  (w.dsi (dsi_events log).length e, log ++ [e])

/-! ## Panel callbacks -/

/-- Entry `i` of the instruction table of a descriptor (a zero entry past the
end of the array, where the C read is undefined). -/
def Mem.instr (m : Mem) (d : nt36860_desc) (i : Nat) : nt36860_dcs_instr :=
  (m.table d.init).getD i zero_instr

/-- The transfer `mipi_dsi_dcs_write_buffer(ctx->dsi, instr->data, instr->len)`
for entry `i`. -/
def write_event (m : Mem) (d : nt36860_desc) (i : Nat) : Event :=
  .mipi_dsi_dcs_write_buffer (m.bytes (m.instr d i).data (m.instr d i).len) (m.instr d i).len

/-- The `for (i = 0; i < ctx->desc->init_len; i++)` loop of `nt36860_prepare`,
by recursion on the number of iterations left: `some ret` is the early
`return ret`, `none` the normal exit. -/
def prepare_loop (w : World) (m : Mem) (d : nt36860_desc) :
    Nat → Nat → List Event → Option Int × List Event
  | 0, _, log => (none, log)
  | n + 1, i, log =>
    let r := dsi_call w (write_event m d i) log
    if r.1 ≠ 0 then (some r.1, r.2)
    else prepare_loop w m d n (i + 1) r.2

/-- The part of `nt36860_prepare` after the rails: reset pulse, instruction
replay, sleep exit. -/
def prepare_panel (w : World) (m : Mem) (ctx : nt36860) (log : List Event) :
    Int × List Event :=
  let log := msleep 10 log
  let log := gpiod_set_value_cansleep 0 log
  let log := usleep_range 10 20 log
  let log := gpiod_set_value_cansleep 1 log
  let log := usleep_range 10 20 log
  let log := gpiod_set_value_cansleep 0 log
  let log := msleep 10 log
  match prepare_loop w m (m.desc ctx.desc) (m.desc ctx.desc).init_len 0 log with
  | (some ret, log) => (ret, log)
  | (none, log) =>
    let r := dsi_call w .mipi_dsi_dcs_exit_sleep_mode log
    if r.1 ≠ 0 then r
    else (0, msleep 100 r.2)

/-- The part of `nt36860_prepare` from the first `msleep(1)`: the two
mandatory rails, then the panel. -/
def prepare_rails (w : World) (m : Mem) (ctx : nt36860) (log : List Event) :
    Int × List Event :=
  let log := msleep 1 log
  let r := regulator_enable w .avdd log
  if r.1 ≠ 0 then r
  else
    let log := msleep 1 r.2
    let r := regulator_enable w .avee log
    if r.1 ≠ 0 then r
    else prepare_panel w m ctx r.2

/-- Embedding of `nt36860_prepare`: the return value and the extended log. -/
def nt36860_prepare (w : World) (m : Mem) (ctx : nt36860) (log : List Event) :
    Int × List Event :=
  let log := gpiod_set_value_cansleep 1 log
  if ctx.vddi then
    let r := regulator_enable w .vddi log
    if r.1 ≠ 0 then r
    else prepare_rails w m ctx r.2
  else prepare_rails w m ctx log

/-- Embedding of `nt36860_enable`: the result of the display-on call is
dropped. -/
def nt36860_enable (w : World) (log : List Event) : Int × List Event :=
  let r := dsi_call w .mipi_dsi_dcs_set_display_on log
  let log := msleep 40 r.2
  (0, log)

/-- Embedding of `nt36860_disable`. -/
def nt36860_disable (w : World) (log : List Event) : Int × List Event :=
  dsi_call w .mipi_dsi_dcs_set_display_off log

/-- Embedding of `nt36860_unprepare`: every result is dropped. -/
def nt36860_unprepare (w : World) (ctx : nt36860) (log : List Event) : Int × List Event :=
  let r := dsi_call w .mipi_dsi_dcs_set_tear_off log
  let r := dsi_call w .mipi_dsi_dcs_enter_sleep_mode r.2
  let log := gpiod_set_value_cansleep 1 r.2
  let log := msleep 1 log
  let r := regulator_disable w .avee log
  let log := msleep 1 r.2
  let r := regulator_disable w .avdd log
  if ctx.vddi then
    let log := msleep 1 r.2
    let r := regulator_disable w .vddi log
    (0, r.2)
  else (0, r.2)

/-- The events a callback appended to the log it was given. -/
def appended (before after : List Event) : List Event := after.drop before.length

/-- The entries the update loop writes for a well-formed stream whose first
frame starts at offset `off`: one per frame, `len` the length byte and `data`
pointing just behind it. -/
def decoded : Nat → List (List Nat) → List nt36860_dcs_instr
  | _, [] => []
  | off, p :: ps => { data := .tu8 (off + 1), len := p.length } :: decoded (off + p.length + 1) ps

/-- Memory after the debug block has accepted a well-formed stream: the
stream sits at the start of `temp`, and the descriptor copy owns a fresh table
holding one entry per frame. -/
def accepted (np : device_node) (m : Mem) (frames : List (List Nat)) : Mem :=
  { (probe_fields np .jdi_lpm035m407b_desc m) with
    tu8 := store_bytes (probe_fields np .jdi_lpm035m407b_desc m).tu8 (frames_stream frames)
    debug := { (probe_fields np .jdi_lpm035m407b_desc m).debug with
      init_len := frames.length, init := .kzalloc }
    kzalloc_init := decoded 0 frames }

/-- A probe in debug mode whose only property is `on-cmds`. -/
def only_on_cmds (bytes : List Nat) : device_node :=
  { debug_on := true, panel_orient := none, video_flags := none, panel_mode := none,
    on_cmds := some bytes }

/-- A probe in debug mode whose only property is `panel-mode`. -/
def only_panel_mode (cells : List Nat) : device_node :=
  { debug_on := true, panel_orient := none, video_flags := none, panel_mode := some cells,
    on_cmds := none }

/-- Every allocation of the probe succeeds. -/
def kzalloc_ok : Kzalloc := { ctx := true, debug := true, init := true }

/-- The calls `nt36860_prepare` makes before the instruction loop when every
rail enable returns 0: reset asserted, the rails with their settle delays, the
reset pulse. -/
def power_up (ctx : nt36860) : List Event :=
  [.gpiod_set_value_cansleep 1] ++ (if ctx.vddi then [.regulator_enable .vddi] else []) ++
  [.msleep 1, .regulator_enable .avdd, .msleep 1, .regulator_enable .avee, .msleep 10,
   .gpiod_set_value_cansleep 0, .usleep_range 10 20, .gpiod_set_value_cansleep 1,
   .usleep_range 10 20, .gpiod_set_value_cansleep 0, .msleep 10]

/-- The calls `nt36860_unprepare` makes. -/
def power_down (ctx : nt36860) : List Event :=
  [.mipi_dsi_dcs_set_tear_off, .mipi_dsi_dcs_enter_sleep_mode, .gpiod_set_value_cansleep 1,
   .msleep 1, .regulator_disable .avee, .msleep 1, .regulator_disable .avdd] ++
  (if ctx.vddi then [.msleep 1, .regulator_disable .vddi] else [])

/-- Whether an event is a delay. -/
def Event.is_delay : Event → Bool
  | .msleep _ => true
  | .usleep_range _ _ => true
  | _ => false

/-- The rails a session has. -/
def rails (ctx : nt36860) : List Rail :=
  (if ctx.vddi then [.vddi] else []) ++ [.avdd, .avee]

/-- A world in which every call returns 0. -/
def world_ok : World :=
  { regulator_enable := fun _ => 0, regulator_disable := fun _ => 0, dsi := fun _ _ => 0 }

/-- A world in which the rails work and every DSI transfer returns `-ETIMEDOUT`. -/
def world_dsi_down : World :=
  { regulator_enable := fun _ => 0, regulator_disable := fun _ => 0, dsi := fun _ _ => -ETIMEDOUT }

/-- A world in which the rails work and DSI transfers work until the one
numbered `k` (counting from 0), which returns `-ETIMEDOUT`, as do all later ones. -/
def world_dsi_fails_from (k : Nat) : World :=
  { regulator_enable := fun _ => 0, regulator_disable := fun _ => 0
    dsi := fun n _ => if n < k then 0 else -ETIMEDOUT }

/-- A world in which every call returns `-ETIMEDOUT`. -/
def world_all_fail : World :=
  { regulator_enable := fun _ => -ETIMEDOUT, regulator_disable := fun _ => -ETIMEDOUT
    dsi := fun _ _ => -ETIMEDOUT }

/-- A session on the built-in descriptor without the optional rail. -/
def session_builtin : nt36860 := { desc := .jdi_lpm035m407b_desc, vddi := false }

/-- A session on the built-in descriptor with the optional rail. -/
def session_builtin_vddi : nt36860 := { desc := .jdi_lpm035m407b_desc, vddi := true }

/-! ## The instruction-stream decoder on well-formed streams -/

theorem frames_stream_cons (p : List Nat) (ps : List (List Nat)) :
    frames_stream (p :: ps) = p.length :: (p ++ frames_stream ps) := by
  simp [frames_stream]

theorem decoded_length (frames : List (List Nat)) (off : Nat) :
    (decoded off frames).length = frames.length := by
  induction frames generalizing off with
  | nil => rfl
  | cons p ps ih => simp [decoded, ih]

theorem getD_append_cons (pre : List Nat) (x : Nat) (rest : List Nat) :
    (pre ++ x :: rest).getD pre.length 0 = x := by
  induction pre with
  | nil => rfl
  | cons a pre ih => simpa [List.getD_cons_succ] using ih

/-- The iteration bound of the counting loop is never what stops it: any
bound of at least `ret - iter` gives the same result as a larger one. -/
theorem count_loop_fuel (tu8 : List Nat) (ret : Nat) :
    ∀ (fuel iter count extra : Nat), ret - iter ≤ fuel →
      count_loop tu8 ret (fuel + extra) iter count = count_loop tu8 ret fuel iter count := by
  intro fuel
  induction fuel with
  | zero =>
    intro iter count extra h
    have hge : ¬ iter < ret := by omega
    cases extra <;> simp [count_loop, hge]
  | succ fuel ih =>
    intro iter count extra h
    rw [show fuel + 1 + extra = (fuel + extra) + 1 by omega]
    simp only [count_loop]
    split
    · exact ih _ _ _ (by omega)
    · rfl

/-- The iteration bound of the update loop is never what stops it. -/
theorem update_loop_fuel (ret : Nat) :
    ∀ (fuel iter count extra : Nat) (m : Mem), ret - iter ≤ fuel →
      update_loop ret (fuel + extra) iter count m = update_loop ret fuel iter count m := by
  intro fuel
  induction fuel with
  | zero =>
    intro iter count extra m h
    have hge : ¬ iter < ret := by omega
    cases extra <;> simp [update_loop, hge]
  | succ fuel ih =>
    intro iter count extra m h
    rw [show fuel + 1 + extra = (fuel + extra) + 1 by omega]
    simp only [update_loop]
    split
    · split
      · rfl
      · split
        · rfl
        · exact ih _ _ _ _ (by omega)
    · rfl

/-- On a well-formed stream the counting loop stops exactly at the end of the
stream, having counted one per frame, for every iteration bound that is at
least the stream length. -/
theorem count_loop_frames (frames : List (List Nat)) :
    ∀ (pre post : List Nat) (fuel count ret iter : Nat),
      (frames_stream frames).length ≤ fuel →
      iter = pre.length → ret = pre.length + (frames_stream frames).length →
      count_loop (pre ++ (frames_stream frames ++ post)) ret fuel iter count
        = (ret, count + frames.length) := by
  induction frames with
  | nil =>
    intro pre post fuel count ret iter _ hi hr
    subst hi
    cases fuel <;> simp_all [count_loop, frames_stream]
  | cons p ps ih =>
    intro pre post fuel count ret iter hfuel hi hr
    rw [frames_stream_cons] at hfuel hr ⊢
    simp only [List.length_cons, List.length_append] at hfuel hr
    cases fuel with
    | zero => omega
    | succ fuel =>
      have hlt : iter < ret := by omega
      rw [count_loop, if_pos hlt, hi, List.cons_append, getD_append_cons]
      have h := ih (pre ++ p.length :: p) post fuel (count + 1) ret (pre.length + (p.length + 1))
        (by omega) (by simp) (by simp; omega)
      simp only [List.append_assoc, List.cons_append] at h ⊢
      rw [h]
      simp only [List.length_cons, Prod.mk.injEq, true_and]
      omega

/-- One pass of the update loop body on the allocated table: the two stores
into entry `count` leave it holding the given length and data pointer. -/
theorem store_init_twice (m : Mem) (count len : Nat) (q : DataPtr)
    (hinit : m.debug.init = .kzalloc) (hc : count < m.kzalloc_init.length) :
    ∃ m1, m.store_init m.debug.init count (fun e => { e with len := len }) = some m1 ∧
      m1.store_init m1.debug.init count (fun e => { e with data := q })
        = some { m with kzalloc_init := m.kzalloc_init.set count { data := q, len := len } } := by
  refine ⟨_, by simp only [Mem.store_init, hinit, if_pos hc]; rfl, ?_⟩
  simp [Mem.store_init, hinit, hc, List.set_set]

theorem set_split (l : List nt36860_dcs_instr) (e : nt36860_dcs_instr)
    (rest : List nt36860_dcs_instr) (count n : Nat) (h : count + (n + 1) ≤ l.length) :
    (l.set count e).take (count + 1) ++ (rest ++ (l.set count e).drop (count + 1 + n))
      = l.take count ++ (e :: rest ++ l.drop (count + (n + 1))) := by
  have h1 : (l.set count e).take (count + 1) = l.take count ++ [e] := by
    rw [List.set_eq_take_append_cons_drop, if_pos (by omega)]
    rw [List.take_append_eq_append_take]
    simp [List.length_take, Nat.min_eq_left (by omega : count ≤ l.length)]
  have h2 : (l.set count e).drop (count + 1 + n) = l.drop (count + (n + 1)) := by
    rw [List.drop_set_of_lt _ _ (by omega)]
    congr 1
    omega
  rw [h1, h2]
  simp

/-- On a well-formed stream the update loop stores exactly the entries
`decoded`, one per frame, into the allocated table, and changes nothing else. -/
theorem update_loop_frames (frames : List (List Nat)) :
    ∀ (pre post : List Nat) (fuel count ret iter : Nat) (m : Mem),
      m.tu8 = pre ++ (frames_stream frames ++ post) →
      m.debug.init = .kzalloc →
      count + frames.length ≤ m.kzalloc_init.length →
      (frames_stream frames).length ≤ fuel →
      iter = pre.length → ret = pre.length + (frames_stream frames).length →
      update_loop ret fuel iter count m
        = some { m with kzalloc_init := m.kzalloc_init.take count
            ++ (decoded iter frames ++ m.kzalloc_init.drop (count + frames.length)) } := by
  induction frames with
  | nil =>
    intro pre post fuel count ret iter m _ _ _ _ hi hr
    subst hi
    cases m
    cases fuel <;> simp_all [update_loop, frames_stream, decoded]
  | cons p ps ih =>
    intro pre post fuel count ret iter m htu8 hinit hcount hfuel hi hr
    rw [frames_stream_cons] at hfuel hr htu8
    simp only [List.length_cons, List.length_append] at hfuel hr hcount
    cases fuel with
    | zero => omega
    | succ fuel =>
      have hlt : iter < ret := by omega
      obtain ⟨m1, hs1, hs2⟩ := store_init_twice m count (m.tu8.getD iter 0) (.tu8 (iter + 1))
        hinit (by omega)
      rw [update_loop, if_pos hlt, hs1]
      simp only [hs2]
      have hget : m.tu8.getD iter 0 = p.length := by
        rw [htu8, hi, List.cons_append, getD_append_cons]
      rw [hget]
      have h := ih (pre ++ p.length :: p) post fuel (count + 1) ret (iter + (p.length + 1))
        { m with kzalloc_init := m.kzalloc_init.set count { data := .tu8 (iter + 1), len := p.length } }
        (by simp [htu8]) hinit (by simp; omega) (by omega) (by simp [hi]) (by simp; omega)
      rw [h]
      simp only [decoded, List.length_cons]
      rw [set_split _ _ _ _ _ (by omega)]
      rw [show iter + p.length + 1 = iter + (p.length + 1) by omega]

/-- Writing the entries `decoded` back reproduces the stream they were
decoded from. -/
theorem encode_decoded (frames : List (List Nat)) :
    ∀ (pre post : List Nat) (m : Mem) (off : Nat),
      m.tu8 = pre ++ (frames_stream frames ++ post) → off = pre.length →
      encode m (decoded off frames) = frames_stream frames := by
  induction frames with
  | nil => intro pre post m off _ _; rfl
  | cons p ps ih =>
    intro pre post m off htu8 hoff
    rw [frames_stream_cons] at htu8 ⊢
    have hrest : encode m (decoded (off + p.length + 1) ps) = frames_stream ps :=
      ih (pre ++ p.length :: p) post m (off + p.length + 1) (by simp [htu8]) (by simp [hoff]; omega)
    have hdrop : m.tu8.drop (off + 1) = p ++ (frames_stream ps ++ post) := by
      rw [htu8, hoff]
      have : pre ++ (p.length :: (p ++ frames_stream ps) ++ post)
          = (pre ++ [p.length]) ++ (p ++ (frames_stream ps ++ post)) := by simp
      rw [this]
      exact List.drop_left' (by simp)
    have hhead : encode_instr m { data := .tu8 (off + 1), len := p.length } = p.length :: p := by
      simp only [encode_instr, Mem.bytes, hdrop]
      rw [List.take_left]
    show encode m (_ :: decoded (off + p.length + 1) ps) = _
    simp only [encode, List.flatMap_cons] at hrest ⊢
    rw [hhead, hrest]
    simp

/-- The "On commands" block on a well-formed stream of admissible length,
when the table allocation succeeds: the stream is accepted, the descriptor copy
gets a fresh table with one entry per frame, and nothing else changes. -/
theorem probe_on_cmds_frames (np : device_node) (k : Kzalloc) (m : Mem)
    (frames : List (List Nat)) (hB : np.on_cmds = some (frames_stream frames))
    (hk : k.init = true) (h3 : 3 ≤ (frames_stream frames).length)
    (h1000 : (frames_stream frames).length ≤ 1000) :
    probe_on_cmds np k m = .done { m with
      tu8 := store_bytes m.tu8 (frames_stream frames)
      debug := { m.debug with init_len := frames.length, init := .kzalloc }
      kzalloc_init := decoded 0 frames } := by
  have hnot : ¬ ((frames_stream frames).length < 3 ∨ 1000 < (frames_stream frames).length) := by
    omega
  have hcount := count_loop_frames frames [] (m.tu8.drop (frames_stream frames).length)
    (frames_stream frames).length 0 (frames_stream frames).length 0 (Nat.le_refl _) rfl (by simp)
  simp only [List.nil_append, Nat.zero_add] at hcount
  simp only [probe_on_cmds, of_property_read_variable_u8_array, hB, if_neg hnot, store_bytes,
    Int.toNat_ofNat, hcount, hk, if_true, ne_eq, not_true_eq_false, if_false,
    (by omega : ¬ ((frames_stream frames).length : Int) < 0)]
  have hupd := update_loop_frames frames [] (m.tu8.drop (frames_stream frames).length)
    (frames_stream frames).length 0 (frames_stream frames).length 0
    { m with
      tu8 := frames_stream frames ++ m.tu8.drop (frames_stream frames).length
      debug := { m.debug with init_len := frames.length, init := .kzalloc }
      kzalloc_init := List.replicate frames.length zero_instr }
    (by simp) rfl (by simp) (Nat.le_refl _) rfl (by simp)
  simp only [probe_update, hupd]
  simp

/-- The probe in debug mode on a well-formed stream of admissible length,
with its allocations succeeding, attaches the descriptor copy and leaves the
memory `accepted`. -/
theorem nt36860_probe_frames (np : device_node) (k : Kzalloc) (m : Mem)
    (frames : List (List Nat)) (hdbg : np.debug_on = true)
    (hB : np.on_cmds = some (frames_stream frames))
    (hk : k.ctx = true ∧ k.debug = true ∧ k.init = true)
    (h3 : 3 ≤ (frames_stream frames).length) (h1000 : (frames_stream frames).length ≤ 1000) :
    nt36860_probe np k m = .attached .debug (accepted np m frames) := by
  obtain ⟨hk1, hk2, hk3⟩ := hk
  have hblock := probe_on_cmds_frames np k (probe_fields np .jdi_lpm035m407b_desc m)
    frames hB hk3 h3 h1000
  simp only [nt36860_probe, hk1, hk2, hdbg, Bool.not_true, Bool.false_eq_true, if_false,
    if_true, hblock, accepted]

theorem accepted_instrs (np : device_node) (m : Mem) (frames : List (List Nat)) :
    (accepted np m frames).instrs .debug = decoded 0 frames := by
  have htake : (decoded 0 frames).take frames.length = decoded 0 frames :=
    List.take_of_length_le (by rw [decoded_length])
  simp only [Mem.instrs, Mem.desc, Mem.table, accepted, htake]

/-! ## The instruction loop of `nt36860_prepare` -/

theorem appended_append (log evs : List Event) : appended log (log ++ evs) = evs := by
  simp [appended]

theorem dsi_events_append (a b : List Event) :
    dsi_events (a ++ b) = dsi_events a ++ dsi_events b := by
  simp [dsi_events]

theorem dsi_events_write (log : List Event) (m : Mem) (d : nt36860_desc) (i : Nat) :
    (dsi_events (log ++ [write_event m d i])).length = (dsi_events log).length + 1 := by
  simp [dsi_events, write_event, Event.is_dsi]

theorem dsi_events_power_up (ctx : nt36860) : dsi_events (power_up ctx) = [] := by
  cases h : ctx.vddi <;> simp [power_up, h, dsi_events, Event.is_dsi]

theorem dsi_events_writes (m : Mem) (d : nt36860_desc) (l : List Nat) :
    dsi_events (l.map (write_event m d)) = l.map (write_event m d) := by
  induction l with
  | nil => rfl
  | cons a l ih =>
    simp only [dsi_events] at ih
    simp [dsi_events, write_event, Event.is_dsi, ih]

/-- The loop returns early only with a non-zero code. -/
theorem prepare_loop_some (w : World) (m : Mem) (d : nt36860_desc) :
    ∀ (n i : Nat) (log : List Event) (ret : Int),
      (prepare_loop w m d n i log).1 = some ret → ret ≠ 0 := by
  intro n
  induction n with
  | zero => intro i log ret h; simp [prepare_loop] at h
  | succ n ih =>
    intro i log ret h
    simp only [prepare_loop] at h
    split at h
    · rename_i hne
      simp only [Option.some.injEq] at h
      rw [← h]; exact hne
    · exact ih _ _ _ h

/-- A loop that runs to its normal exit has written all its instructions, in
order. -/
theorem prepare_loop_none (w : World) (m : Mem) (d : nt36860_desc) :
    ∀ (n i : Nat) (log : List Event),
      (prepare_loop w m d n i log).1 = none →
      (prepare_loop w m d n i log).2 = log ++ (List.range' i n).map (write_event m d) := by
  intro n
  induction n with
  | zero => intro i log _; simp [prepare_loop]
  | succ n ih =>
    intro i log h
    simp only [prepare_loop] at h ⊢
    split at h
    · simp at h
    · rename_i hne
      rw [if_neg hne, ih _ _ h]
      simp [dsi_call, List.range'_succ]

/-- A loop whose writes return 0 up to number `k` and whose write `k` returns
a non-zero code stops there, returning that code, having attempted writes
`0 .. k` once each, in order. -/
theorem prepare_loop_fail (w : World) (m : Mem) (d : nt36860_desc) :
    ∀ (k n i : Nat) (log : List Event),
      k < n →
      (∀ j, j < k → w.dsi ((dsi_events log).length + j) (write_event m d (i + j)) = 0) →
      w.dsi ((dsi_events log).length + k) (write_event m d (i + k)) ≠ 0 →
      prepare_loop w m d n i log
        = (some (w.dsi ((dsi_events log).length + k) (write_event m d (i + k))),
           log ++ (List.range' i (k + 1)).map (write_event m d)) := by
  intro k
  induction k with
  | zero =>
    intro n i log hn _ hfail
    cases n with
    | zero => omega
    | succ n =>
      simp only [Nat.add_zero] at hfail ⊢
      simp [prepare_loop, dsi_call, hfail]
  | succ k ih =>
    intro n i log hn hok hfail
    cases n with
    | zero => omega
    | succ n =>
      have h0 : w.dsi (dsi_events log).length (write_event m d i) = 0 := by
        simpa using hok 0 (by omega)
      have hstep := ih n (i + 1) (log ++ [write_event m d i]) (by omega)
        (by
          intro j hj
          rw [dsi_events_write]
          have := hok (j + 1) (by omega)
          rw [show (dsi_events log).length + 1 + j = (dsi_events log).length + (j + 1) by omega,
            show i + 1 + j = i + (j + 1) by omega]
          exact this)
        (by
          rw [dsi_events_write]
          rw [show (dsi_events log).length + 1 + k = (dsi_events log).length + (k + 1) by omega,
            show i + 1 + k = i + (k + 1) by omega]
          exact hfail)
      rw [dsi_events_write] at hstep
      rw [show (dsi_events log).length + 1 + k = (dsi_events log).length + (k + 1) by omega,
        show i + 1 + k = i + (k + 1) by omega] at hstep
      simp only [prepare_loop, dsi_call, h0, ne_eq, not_true_eq_false, if_false]
      rw [hstep]
      simp [List.range'_succ]

/-! ## `nt36860_prepare` as a whole -/

/-- With the rails working, `nt36860_prepare` reaches the instruction loop
after exactly the calls `power_up`. -/
theorem nt36860_prepare_rails_ok (w : World) (m : Mem) (ctx : nt36860) (log : List Event)
    (hvddi : ctx.vddi = true → w.regulator_enable .vddi = 0)
    (havdd : w.regulator_enable .avdd = 0) (havee : w.regulator_enable .avee = 0) :
    nt36860_prepare w m ctx log =
      match prepare_loop w m (m.desc ctx.desc) (m.desc ctx.desc).init_len 0
          (log ++ power_up ctx) with
      | (some ret, log) => (ret, log)
      | (none, log) =>
        if w.dsi (dsi_events log).length .mipi_dsi_dcs_exit_sleep_mode ≠ 0 then
          (w.dsi (dsi_events log).length .mipi_dsi_dcs_exit_sleep_mode,
            log ++ [.mipi_dsi_dcs_exit_sleep_mode])
        else (0, log ++ [.mipi_dsi_dcs_exit_sleep_mode, .msleep 100]) := by
  cases hv : ctx.vddi
  · simp [nt36860_prepare, prepare_rails, prepare_panel, regulator_enable, dsi_call, msleep,
      usleep_range, gpiod_set_value_cansleep, power_up, hv, havdd, havee]
  · simp [nt36860_prepare, prepare_rails, prepare_panel, regulator_enable, dsi_call, msleep,
      usleep_range, gpiod_set_value_cansleep, power_up, hv, havdd, havee, hvddi hv]

/-- A run of `nt36860_prepare` in which the rails work, the writes of
instructions `0 .. i-1` return 0 and the write of instruction `i` does not:
the return value is the code of write `i`, and the calls made are `power_up`
followed by the writes `0 .. i`. -/
theorem nt36860_prepare_abort (w : World) (m : Mem) (ctx : nt36860) (log : List Event) (i : Nat)
    (hvddi : ctx.vddi = true → w.regulator_enable .vddi = 0)
    (havdd : w.regulator_enable .avdd = 0) (havee : w.regulator_enable .avee = 0)
    (hi : i < (m.desc ctx.desc).init_len)
    (hok : ∀ j, j < i →
      w.dsi ((dsi_events log).length + j) (write_event m (m.desc ctx.desc) j) = 0)
    (hfail : w.dsi ((dsi_events log).length + i) (write_event m (m.desc ctx.desc) i) ≠ 0) :
    nt36860_prepare w m ctx log =
      (w.dsi ((dsi_events log).length + i) (write_event m (m.desc ctx.desc) i),
       log ++ (power_up ctx ++ (List.range (i + 1)).map (write_event m (m.desc ctx.desc)))) := by
  have hlen : (dsi_events (log ++ power_up ctx)).length = (dsi_events log).length := by
    rw [dsi_events_append, dsi_events_power_up, List.append_nil]
  have hloop := prepare_loop_fail w m (m.desc ctx.desc) i (m.desc ctx.desc).init_len 0
    (log ++ power_up ctx) hi
    (by intro j hj; rw [hlen, Nat.zero_add]; exact hok j hj)
    (by rw [hlen, Nat.zero_add]; exact hfail)
  rw [nt36860_prepare_rails_ok w m ctx log hvddi havdd havee, hloop]
  simp only [hlen, Nat.zero_add, List.range_eq_range', List.append_assoc]

/-- A run of `nt36860_prepare` that returns 0 has made the calls `power_up`,
then written every instruction of the descriptor in order, then issued the
sleep-exit command and waited 100 ms. -/
theorem nt36860_prepare_success (w : World) (m : Mem) (ctx : nt36860) (log : List Event)
    (h0 : (nt36860_prepare w m ctx log).1 = 0) :
    (nt36860_prepare w m ctx log).2 =
      log ++ (power_up ctx ++ ((List.range (m.desc ctx.desc).init_len).map
          (write_event m (m.desc ctx.desc))
        ++ [.mipi_dsi_dcs_exit_sleep_mode, .msleep 100])) := by
  have hvddi : ctx.vddi = true → w.regulator_enable .vddi = 0 := by
    intro hv
    by_contra hne
    simp [nt36860_prepare, regulator_enable, hv, hne] at h0
  have havdd : w.regulator_enable .avdd = 0 := by
    by_contra hne
    cases hv : ctx.vddi
    · simp [nt36860_prepare, prepare_rails, regulator_enable, hv, hne] at h0
    · simp [nt36860_prepare, prepare_rails, regulator_enable, hv, hne, hvddi hv] at h0
  have havee : w.regulator_enable .avee = 0 := by
    by_contra hne
    cases hv : ctx.vddi
    · simp [nt36860_prepare, prepare_rails, regulator_enable, hv, hne, havdd] at h0
    · simp [nt36860_prepare, prepare_rails, regulator_enable, hv, hne, hvddi hv, havdd] at h0
  rw [nt36860_prepare_rails_ok w m ctx log hvddi havdd havee] at h0 ⊢
  rcases hl : prepare_loop w m (m.desc ctx.desc) (m.desc ctx.desc).init_len 0
      (log ++ power_up ctx) with ⟨_ | ret, log1⟩
  · have hnone := prepare_loop_none w m (m.desc ctx.desc) (m.desc ctx.desc).init_len 0
      (log ++ power_up ctx) (by rw [hl])
    rw [hl] at hnone h0
    simp only at hnone h0 ⊢
    split at h0
    · rename_i hne
      exact absurd h0 hne
    · rename_i hz
      rw [if_neg hz, hnone]
      simp [List.range_eq_range']
  · have hne := prepare_loop_some w m (m.desc ctx.desc) (m.desc ctx.desc).init_len 0
      (log ++ power_up ctx) ret (by rw [hl])
    rw [hl] at h0
    exact absurd h0 hne

theorem rail_enables_writes (m : Mem) (d : nt36860_desc) (l : List Nat) :
    rail_enables (l.map (write_event m d)) = [] := by
  induction l with
  | nil => rfl
  | cons a l ih =>
    simp only [rail_enables] at ih
    simp [rail_enables, write_event, ih]

theorem rail_disables_writes (m : Mem) (d : nt36860_desc) (l : List Nat) :
    rail_disables (l.map (write_event m d)) = [] := by
  induction l with
  | nil => rfl
  | cons a l ih =>
    simp only [rail_disables] at ih
    simp [rail_disables, write_event, ih]

theorem reset_writes_writes (m : Mem) (d : nt36860_desc) (l : List Nat) :
    reset_writes (l.map (write_event m d)) = [] := by
  induction l with
  | nil => rfl
  | cons a l ih =>
    simp only [reset_writes] at ih
    simp [reset_writes, write_event, ih]

theorem rail_enables_power_up (ctx : nt36860) : rail_enables (power_up ctx) = rails ctx := by
  cases h : ctx.vddi <;> simp [power_up, rails, h, rail_enables]

theorem rail_disables_power_up (ctx : nt36860) : rail_disables (power_up ctx) = [] := by
  cases h : ctx.vddi <;> simp [power_up, h, rail_disables]

theorem reset_writes_power_up (ctx : nt36860) : reset_writes (power_up ctx) = [1, 0, 1, 0] := by
  cases h : ctx.vddi <;> simp [power_up, h, reset_writes]

/-- The calls of `nt36860_unprepare` do not depend on any return code. -/
theorem nt36860_unprepare_eq (w : World) (ctx : nt36860) (log : List Event) :
    nt36860_unprepare w ctx log = (0, log ++ power_down ctx) := by
  cases h : ctx.vddi <;>
    simp [nt36860_unprepare, power_down, h, dsi_call, regulator_disable, msleep,
      gpiod_set_value_cansleep]

/-- The first `n` elements of a list, read index by index. -/
theorem take_eq_map_range (l : List nt36860_dcs_instr) (d : nt36860_dcs_instr) (n : Nat)
    (hn : n ≤ l.length) : l.take n = (List.range n).map (fun j => l.getD j d) := by
  apply List.ext_getElem
  · simp [Nat.min_eq_left hn]
  · intro k h1 h2
    have hk : k < l.length := by
      simp only [List.length_take] at h1
      omega
    simp [List.getD_eq_getElem?_getD, List.getElem?_eq_getElem hk]

/-! ## Claims about the override loader -/

/-- C1: round trip of the instruction-stream decoder.  For every on-cmds
buffer `B` that is a concatenation of frames (one length byte followed by
exactly that many bytes) and has between 3 and 1000 bytes, the probe in debug
mode, with its allocations succeeding, accepts the stream: the session
descriptor is the copy, its table is the freshly allocated one with one entry
per frame, and writing each entry back as its length byte followed by its
`len` data bytes, in order, gives `B` again. -/
theorem C1_decoder_round_trip (np : device_node) (k : Kzalloc) (m : Mem)
    (B : List Nat) (frames : List (List Nat))
    (hwf : B = frames_stream frames)
    (hlen : 3 ≤ B.length ∧ B.length ≤ 1000)
    (hnp : np.debug_on = true ∧ np.on_cmds = some B)
    (hk : k.ctx = true ∧ k.debug = true ∧ k.init = true) :
    ∃ m1, nt36860_probe np k m = .attached .debug m1 ∧
      (m1.desc .debug).init = .kzalloc ∧
      (m1.desc .debug).init_len = frames.length ∧
      (m1.instrs .debug).length = frames.length ∧
      encode m1 (m1.instrs .debug) = B := by
  subst hwf
  refine ⟨accepted np m frames,
    nt36860_probe_frames np k m frames hnp.1 hnp.2 hk hlen.1 hlen.2, rfl, rfl, ?_, ?_⟩
  · rw [accepted_instrs, decoded_length]
  · rw [accepted_instrs]
    exact encode_decoded frames []
      ((probe_fields np .jdi_lpm035m407b_desc m).tu8.drop (frames_stream frames).length)
      _ 0 (by simp [accepted, store_bytes]) rfl

/-- C1 at the stream `[1, 0x11, 0, 3, 0x2A, 0, 5]` (three frames, the second
one empty), from the memory at module load. -/
theorem C1_decoder_round_trip_witness :
    ([1, 0x11, 0, 3, 0x2A, 0, 5] : List Nat) = frames_stream [[0x11], [], [0x2A, 0, 5]] ∧
    ∃ m1, nt36860_probe (only_on_cmds [1, 0x11, 0, 3, 0x2A, 0, 5]) kzalloc_ok boot
        = .attached .debug m1 ∧
      (m1.desc .debug).init = .kzalloc ∧
      (m1.desc .debug).init_len = 3 ∧
      (m1.instrs .debug).length = 3 ∧
      encode m1 (m1.instrs .debug) = [1, 0x11, 0, 3, 0x2A, 0, 5] :=
  ⟨by decide, C1_decoder_round_trip _ _ boot [1, 0x11, 0, 3, 0x2A, 0, 5]
    [[0x11], [], [0x2A, 0, 5]] (by decide) (by decide) ⟨rfl, rfl⟩ ⟨rfl, rfl, rfl⟩⟩

/-- C2 (the code at a failing input): from the memory at module load, the
on-cmds stream `[5, 0xAA, 0xBB]`, whose only frame declares five bytes where
two are left, fails the sanity check (the descriptor copy keeps the built-in
table pointer and `init_len` 25), yet the update loop still runs and stores the
frame into entry 0 of the built-in table `jdi_lpm035m407b_init`, which the
session then replays: first instruction of length 5 read from `temp`. -/
theorem C2_rejected_stream_is_stored_in_builtin_table :
    ∃ m1, nt36860_probe (only_on_cmds [5, 0xAA, 0xBB]) kzalloc_ok boot = .attached .debug m1 ∧
      (m1.desc .debug).init = .jdi_lpm035m407b_init ∧
      (m1.desc .debug).init_len = 25 ∧
      m1.jdi_lpm035m407b_init
        = { data := .tu8 1, len := 5 } :: jdi_lpm035m407b_init.drop 1 ∧
      m1.jdi_lpm035m407b_init ≠ boot.jdi_lpm035m407b_init ∧
      (m1.instrs .debug).map (encode_instr m1)
        ≠ (boot.instrs .jdi_lpm035m407b_desc).map (encode_instr boot) ∧
      ((m1.instrs .debug).map (encode_instr m1)).head? = some [5, 0xAA, 0xBB, 0, 0, 0] := by
  refine ⟨(nt36860_probe (only_on_cmds [5, 0xAA, 0xBB]) kzalloc_ok boot).mem,
    rfl, rfl, rfl, rfl, ?_, ?_, rfl⟩
  · decide
  · decide

/-- C3 (the claim as stated fails): the built-in instruction table has 25
entries, not 24, and the built-in descriptor records `init_len` 25. -/
theorem C3_builtin_table_has_25_entries :
    ¬ ((boot.instrs .jdi_lpm035m407b_desc).length = 24) ∧
    (boot.instrs .jdi_lpm035m407b_desc).length = 25 ∧
    boot.jdi_lpm035m407b_init.length = 25 ∧
    (boot.desc .jdi_lpm035m407b_desc).init_len = 25 := by
  decide

/-- C3 (amended): starting from the memory at module load, whose built-in
descriptor has 25 instructions, a probe in debug mode that loads the on-cmds
stream `[0x02,0xFF,0x10,0x02,0xFB,0x01]` attaches a descriptor with exactly 2
instructions, held in the freshly allocated table: data bytes `[0xFF,0x10]`
and `[0xFB,0x01]`, `len` 2 each, in that order; no entry of the session's
sequence is an entry of the built-in table. -/
theorem C3_override_scenario (np : device_node) (k : Kzalloc)
    (hnp : np.debug_on = true ∧ np.on_cmds = some [0x02, 0xFF, 0x10, 0x02, 0xFB, 0x01])
    (hk : k.ctx = true ∧ k.debug = true ∧ k.init = true) :
    (boot.instrs .jdi_lpm035m407b_desc).length = 25 ∧
    ∃ m1, nt36860_probe np k boot = .attached .debug m1 ∧
      (m1.desc .debug).init = .kzalloc ∧
      (m1.desc .debug).init_len = 2 ∧
      m1.instrs .debug = [{ data := .tu8 1, len := 2 }, { data := .tu8 4, len := 2 }] ∧
      (m1.instrs .debug).map (fun e => m1.bytes e.data e.len) = [[0xFF, 0x10], [0xFB, 0x01]] ∧
      (m1.instrs .debug).map (fun e => e.len) = [2, 2] ∧
      ∀ e ∈ m1.instrs .debug, e ∉ boot.instrs .jdi_lpm035m407b_desc := by
  have hprobe := nt36860_probe_frames np k boot [[0xFF, 0x10], [0xFB, 0x01]] hnp.1 hnp.2 hk
    (by decide) (by decide)
  have hin : (accepted np boot [[0xFF, 0x10], [0xFB, 0x01]]).instrs .debug
      = [{ data := .tu8 1, len := 2 }, { data := .tu8 4, len := 2 }] := by
    rw [accepted_instrs]; rfl
  refine ⟨by decide, accepted np boot [[0xFF, 0x10], [0xFB, 0x01]], hprobe, rfl, rfl, hin, ?_, ?_, ?_⟩
  · rw [hin]
    simp [Mem.bytes, accepted, store_bytes, frames_stream]
  · rw [hin]; rfl
  · rw [hin]
    decide

/-- C3 (amended) with `on-cmds` the only property present and every
allocation succeeding. -/
theorem C3_override_scenario_witness :
    (boot.instrs .jdi_lpm035m407b_desc).length = 25 ∧
    ∃ m1, nt36860_probe (only_on_cmds [0x02, 0xFF, 0x10, 0x02, 0xFB, 0x01]) kzalloc_ok boot
        = .attached .debug m1 ∧
      (m1.desc .debug).init = .kzalloc ∧
      (m1.desc .debug).init_len = 2 ∧
      m1.instrs .debug = [{ data := .tu8 1, len := 2 }, { data := .tu8 4, len := 2 }] ∧
      (m1.instrs .debug).map (fun e => m1.bytes e.data e.len) = [[0xFF, 0x10], [0xFB, 0x01]] ∧
      (m1.instrs .debug).map (fun e => e.len) = [2, 2] ∧
      ∀ e ∈ m1.instrs .debug, e ∉ boot.instrs .jdi_lpm035m407b_desc :=
  C3_override_scenario (only_on_cmds [0x02, 0xFF, 0x10, 0x02, 0xFB, 0x01]) kzalloc_ok
    ⟨rfl, rfl⟩ ⟨rfl, rfl, rfl⟩

/-- C10 (the code at a failing input): from the memory at module load, a probe
in debug mode with a twelve-cell `panel-mode` stores the twelve values through
the mode pointer the descriptor copy shares with the built-in descriptor, so
the built-in timing `jdi_lpm035m407b_mode` itself is overwritten; the built-in
descriptor structure and the built-in instruction table keep their values. -/
theorem C10_panel_mode_is_stored_in_builtin_mode :
    ∃ m1, nt36860_probe
        (only_panel_mode [148500, 1920, 2008, 2052, 2200, 1080, 1084, 1089, 1125, 68, 121, 5])
        kzalloc_ok boot = .attached .debug m1 ∧
      (m1.desc .debug).mode = (m1.desc .jdi_lpm035m407b_desc).mode ∧
      m1.jdi_lpm035m407b_mode =
        { clock := 148500, hdisplay := 1920, hsync_start := 2008, hsync_end := 2052,
          htotal := 2200, vdisplay := 1080, vsync_start := 1084, vsync_end := 1089,
          vtotal := 1125, width_mm := 68, height_mm := 121, flags := 5 } ∧
      m1.jdi_lpm035m407b_mode ≠ boot.jdi_lpm035m407b_mode ∧
      m1.jdi_lpm035m407b_desc = boot.jdi_lpm035m407b_desc ∧
      m1.jdi_lpm035m407b_init = boot.jdi_lpm035m407b_init := by
  refine ⟨(nt36860_probe
    (only_panel_mode [148500, 1920, 2008, 2052, 2200, 1080, 1084, 1089, 1125, 68, 121, 5])
    kzalloc_ok boot).mem, rfl, rfl, rfl, ?_, rfl, rfl⟩
  decide

/-! ## Claims about the panel callbacks -/

/-- C4: abort on the first failed instruction.  For every descriptor and
every behaviour of the collaborators in which the rail enables return 0, the
writes of instructions `0 .. i-1` return 0 and the write of instruction `i`
(an index below `init_len`) returns a non-zero code, `nt36860_prepare` returns
the code of write `i`, and the DSI transfers it issued are exactly one
`mipi_dsi_dcs_write_buffer` per entry `0, 1, .., i` of the table the
descriptor points to, each carrying that entry's `len` and the `len` bytes at
its `data`, once each and in table order: nothing after `i`, and no sleep-exit
command.  When `i` is an index of the table these are the transfers of its
first `i + 1` entries. -/
theorem C4_prepare_aborts_at_first_failed_write (w : World) (m : Mem) (ctx : nt36860)
    (log : List Event) (i : Nat)
    (hrails : (ctx.vddi = true → w.regulator_enable .vddi = 0) ∧
      w.regulator_enable .avdd = 0 ∧ w.regulator_enable .avee = 0)
    (hi : i < (m.desc ctx.desc).init_len)
    (hok : ∀ j, j < i →
      w.dsi ((dsi_events log).length + j)
        (Event.mipi_dsi_dcs_write_buffer
          (m.bytes ((m.table (m.desc ctx.desc).init).getD j zero_instr).data
            ((m.table (m.desc ctx.desc).init).getD j zero_instr).len)
          ((m.table (m.desc ctx.desc).init).getD j zero_instr).len) = 0)
    (hfail : w.dsi ((dsi_events log).length + i)
        (Event.mipi_dsi_dcs_write_buffer
          (m.bytes ((m.table (m.desc ctx.desc).init).getD i zero_instr).data
            ((m.table (m.desc ctx.desc).init).getD i zero_instr).len)
          ((m.table (m.desc ctx.desc).init).getD i zero_instr).len) ≠ 0) :
    (nt36860_prepare w m ctx log).1
      = w.dsi ((dsi_events log).length + i)
        (Event.mipi_dsi_dcs_write_buffer
          (m.bytes ((m.table (m.desc ctx.desc).init).getD i zero_instr).data
            ((m.table (m.desc ctx.desc).init).getD i zero_instr).len)
          ((m.table (m.desc ctx.desc).init).getD i zero_instr).len) ∧
    (nt36860_prepare w m ctx log).1 ≠ 0 ∧
    dsi_events (appended log (nt36860_prepare w m ctx log).2)
      = (List.range (i + 1)).map (fun j =>
          Event.mipi_dsi_dcs_write_buffer
            (m.bytes ((m.table (m.desc ctx.desc).init).getD j zero_instr).data
              ((m.table (m.desc ctx.desc).init).getD j zero_instr).len)
            ((m.table (m.desc ctx.desc).init).getD j zero_instr).len) ∧
    (i < (m.table (m.desc ctx.desc).init).length →
      dsi_events (appended log (nt36860_prepare w m ctx log).2)
        = ((m.table (m.desc ctx.desc).init).take (i + 1)).map (fun e =>
            Event.mipi_dsi_dcs_write_buffer (m.bytes e.data e.len) e.len)) ∧
    Event.mipi_dsi_dcs_exit_sleep_mode ∉ appended log (nt36860_prepare w m ctx log).2 := by
  have h := nt36860_prepare_abort w m ctx log i hrails.1 hrails.2.1 hrails.2.2 hi hok hfail
  have hd : dsi_events (appended log (nt36860_prepare w m ctx log).2)
      = (List.range (i + 1)).map (fun j =>
          Event.mipi_dsi_dcs_write_buffer
            (m.bytes ((m.table (m.desc ctx.desc).init).getD j zero_instr).data
              ((m.table (m.desc ctx.desc).init).getD j zero_instr).len)
            ((m.table (m.desc ctx.desc).init).getD j zero_instr).len) := by
    rw [h, appended_append, dsi_events_append, dsi_events_power_up, dsi_events_writes,
      List.nil_append]
    rfl
  refine ⟨by rw [h]; rfl, by rw [h]; exact hfail, hd, ?_, ?_⟩
  · intro hlt
    rw [hd, take_eq_map_range _ zero_instr (i + 1) (by omega), List.map_map]
    rfl
  · intro hmem
    have hmem2 : Event.mipi_dsi_dcs_exit_sleep_mode
        ∈ dsi_events (appended log (nt36860_prepare w m ctx log).2) := by
      simp only [dsi_events, List.mem_filter]
      exact ⟨hmem, rfl⟩
    rw [hd] at hmem2
    simp at hmem2

/-- C4 on the built-in descriptor, without the optional rail, when the DSI
transport fails from its fourth transfer on: `nt36860_prepare` returns
`-ETIMEDOUT`, and its DSI transfers are the four buffer writes `FF 10`,
`FB 01`, `2A 00 00 05 9F` and `2B 00 00 06 3F`, in that order. -/
theorem C4_prepare_aborts_at_first_failed_write_witness :
    3 < (boot.desc session_builtin.desc).init_len ∧
    (nt36860_prepare (world_dsi_fails_from 3) boot session_builtin []).1 = -110 ∧
    (nt36860_prepare (world_dsi_fails_from 3) boot session_builtin []).1 ≠ 0 ∧
    dsi_events (appended [] (nt36860_prepare (world_dsi_fails_from 3) boot session_builtin []).2)
      = [Event.mipi_dsi_dcs_write_buffer [0xFF, 0x10] 2,
         Event.mipi_dsi_dcs_write_buffer [0xFB, 0x01] 2,
         Event.mipi_dsi_dcs_write_buffer [0x2A, 0x00, 0x00, 0x05, 0x9F] 5,
         Event.mipi_dsi_dcs_write_buffer [0x2B, 0x00, 0x00, 0x06, 0x3F] 5] ∧
    Event.mipi_dsi_dcs_exit_sleep_mode
      ∉ appended [] (nt36860_prepare (world_dsi_fails_from 3) boot session_builtin []).2 :=
  have h := C4_prepare_aborts_at_first_failed_write (world_dsi_fails_from 3) boot
    session_builtin [] 3 ⟨fun _ => rfl, rfl, rfl⟩ (by decide)
    (by intro j hj; simp [world_dsi_fails_from, dsi_events, hj])
    (by decide)
  ⟨by decide, h.1.trans (by decide), h.2.1, (h.2.2.2.1 (by decide)).trans (by decide),
    h.2.2.2.2⟩

/-- C5: rail ordering.  For every session, with or without the optional
`vddi` rail, the rail-enable calls of a run of `nt36860_prepare` that returns 0
are `[vddi if present, avdd, avee]`, the rail-disable calls of
`nt36860_unprepare` are `[avee, avdd, vddi if present]`, and the second
sequence is the reverse of the first. -/
theorem C5_rail_order (w w2 : World) (m : Mem) (ctx : nt36860) (log log2 : List Event)
    (h0 : (nt36860_prepare w m ctx log).1 = 0) :
    rail_enables (appended log (nt36860_prepare w m ctx log).2)
      = (if ctx.vddi then [Rail.vddi] else []) ++ [Rail.avdd, Rail.avee] ∧
    rail_disables (appended log2 (nt36860_unprepare w2 ctx log2).2)
      = [Rail.avee, Rail.avdd] ++ (if ctx.vddi then [Rail.vddi] else []) ∧
    rail_disables (appended log2 (nt36860_unprepare w2 ctx log2).2)
      = (rail_enables (appended log (nt36860_prepare w m ctx log).2)).reverse := by
  have hen : rail_enables (appended log (nt36860_prepare w m ctx log).2)
      = (if ctx.vddi then [Rail.vddi] else []) ++ [Rail.avdd, Rail.avee] := by
    rw [nt36860_prepare_success w m ctx log h0, appended_append]
    simp only [rail_enables, List.filterMap_append]
    have h1 := rail_enables_power_up ctx
    have h2 := rail_enables_writes m (m.desc ctx.desc) (List.range (m.desc ctx.desc).init_len)
    simp only [rail_enables] at h1 h2
    rw [h1, h2]
    simp [rails]
  have hdis : rail_disables (appended log2 (nt36860_unprepare w2 ctx log2).2)
      = [Rail.avee, Rail.avdd] ++ (if ctx.vddi then [Rail.vddi] else []) := by
    rw [nt36860_unprepare_eq, appended_append]
    cases h : ctx.vddi <;> simp [power_down, h, rail_disables]
  refine ⟨hen, hdis, ?_⟩
  rw [hen, hdis]
  cases h : ctx.vddi <;> simp

/-- C5 on the built-in descriptor with the optional rail present, when every
call succeeds. -/
theorem C5_rail_order_witness :
    (nt36860_prepare world_ok boot session_builtin_vddi []).1 = 0 ∧
    rail_enables (appended [] (nt36860_prepare world_ok boot session_builtin_vddi []).2)
      = [Rail.vddi, Rail.avdd, Rail.avee] ∧
    rail_disables (appended [] (nt36860_unprepare world_all_fail session_builtin_vddi []).2)
      = [Rail.avee, Rail.avdd, Rail.vddi] ∧
    rail_disables (appended [] (nt36860_unprepare world_all_fail session_builtin_vddi []).2)
      = (rail_enables
          (appended [] (nt36860_prepare world_ok boot session_builtin_vddi []).2)).reverse :=
  ⟨by decide, C5_rail_order world_ok world_all_fail boot session_builtin_vddi [] [] (by decide)⟩

/-- C6: teardown always completes.  Whatever the tear-off command, the
sleep-enter command and each rail disable return, `nt36860_unprepare` returns 0
and its calls, delays aside, are tear-off, sleep-enter, reset set to 1, disable
`avee`, disable `avdd` and, when the rail is present, disable `vddi`, in that
order. -/
theorem C6_unprepare_always_completes (w : World) (ctx : nt36860) (log : List Event) :
    (nt36860_unprepare w ctx log).1 = 0 ∧
    (appended log (nt36860_unprepare w ctx log).2).filter (fun e => !e.is_delay)
      = [Event.mipi_dsi_dcs_set_tear_off, Event.mipi_dsi_dcs_enter_sleep_mode,
         Event.gpiod_set_value_cansleep 1, Event.regulator_disable .avee,
         Event.regulator_disable .avdd]
        ++ (if ctx.vddi then [Event.regulator_disable .vddi] else []) ∧
    (nt36860_unprepare w ctx log).2 = log ++ power_down ctx := by
  rw [nt36860_unprepare_eq, appended_append]
  refine ⟨rfl, ?_, rfl⟩
  cases h : ctx.vddi <;> simp [power_down, h, Event.is_delay]

/-- C7 (the claim as stated fails): with a transport on which the display-on
command returns `-ETIMEDOUT`, `nt36860_enable` issues the command and returns 0, not
that failure. -/
theorem C7_enable_hides_failed_display_on :
    (dsi_call world_dsi_down .mipi_dsi_dcs_set_display_on []).1 = -ETIMEDOUT ∧
    (dsi_call world_dsi_down .mipi_dsi_dcs_set_display_on []).1 ≠ 0 ∧
    dsi_events (nt36860_enable world_dsi_down []).2 = [Event.mipi_dsi_dcs_set_display_on] ∧
    (nt36860_enable world_dsi_down []).1 = 0 ∧
    (nt36860_enable world_dsi_down []).1
      ≠ (dsi_call world_dsi_down .mipi_dsi_dcs_set_display_on []).1 := by
  decide

/-- C7 (amended): `nt36860_enable` issues the display-on command once, waits
40 ms and returns 0 whatever the display-on command returned, so its return
value does not tell a failed display-on from a successful one. -/
theorem C7_enable_always_returns_zero (w : World) (log : List Event) :
    (nt36860_enable w log).1 = 0 ∧
    appended log (nt36860_enable w log).2
      = [Event.mipi_dsi_dcs_set_display_on, Event.msleep 40] := by
  refine ⟨rfl, ?_⟩
  simp [nt36860_enable, dsi_call, msleep, appended]

/-- C8 (the claim as stated fails): on the built-in descriptor, with working
rails and a transport that fails the first instruction write, `nt36860_prepare`
aborts with `-ETIMEDOUT` and the values it wrote to the reset line are 1, 0, 1, 0:
the last one is 0, not 1. -/
theorem C8_aborted_prepare_leaves_reset_released :
    (nt36860_prepare world_dsi_down boot session_builtin []).1 = -ETIMEDOUT ∧
    dsi_events (nt36860_prepare world_dsi_down boot session_builtin []).2
      = [write_event boot (boot.desc session_builtin.desc) 0] ∧
    reset_writes (nt36860_prepare world_dsi_down boot session_builtin []).2 = [1, 0, 1, 0] ∧
    (reset_writes (nt36860_prepare world_dsi_down boot session_builtin []).2).getLast? = some 0 ∧
    ¬ ((reset_writes (nt36860_prepare world_dsi_down boot session_builtin []).2).getLast?
        = some 1) := by
  decide

/-- C8 (amended): for every run of `nt36860_prepare` that aborts because an
instruction write failed (rails working, writes `0 .. i-1` returning 0, write
`i` returning a non-zero code), at return every rail of the session has been
enabled and none disabled, and the values written to the reset line are 1, 0,
1, 0: the line was asserted first, pulsed, and is left at 0 (released), the
last edge of the reset pulse. -/
theorem C8_aborted_prepare_state (w : World) (m : Mem) (ctx : nt36860)
    (log : List Event) (i : Nat)
    (hrails : (ctx.vddi = true → w.regulator_enable .vddi = 0) ∧
      w.regulator_enable .avdd = 0 ∧ w.regulator_enable .avee = 0)
    (hi : i < (m.desc ctx.desc).init_len)
    (hok : ∀ j, j < i →
      w.dsi ((dsi_events log).length + j) (write_event m (m.desc ctx.desc) j) = 0)
    (hfail : w.dsi ((dsi_events log).length + i) (write_event m (m.desc ctx.desc) i) ≠ 0) :
    (nt36860_prepare w m ctx log).1 ≠ 0 ∧
    rail_enables (appended log (nt36860_prepare w m ctx log).2)
      = (if ctx.vddi then [Rail.vddi] else []) ++ [Rail.avdd, Rail.avee] ∧
    rail_disables (appended log (nt36860_prepare w m ctx log).2) = [] ∧
    reset_writes (appended log (nt36860_prepare w m ctx log).2) = [1, 0, 1, 0] ∧
    (reset_writes (appended log (nt36860_prepare w m ctx log).2)).getLast? = some 0 := by
  have h := nt36860_prepare_abort w m ctx log i hrails.1 hrails.2.1 hrails.2.2 hi hok hfail
  have h1 := rail_enables_power_up ctx
  have h2 := rail_enables_writes m (m.desc ctx.desc) (List.range (i + 1))
  have h3 := rail_disables_power_up ctx
  have h4 := rail_disables_writes m (m.desc ctx.desc) (List.range (i + 1))
  have h5 := reset_writes_power_up ctx
  have h6 := reset_writes_writes m (m.desc ctx.desc) (List.range (i + 1))
  simp only [rail_enables, rail_disables, reset_writes] at h1 h2 h3 h4 h5 h6
  rw [h, appended_append]
  simp only [rail_enables, rail_disables, reset_writes, List.filterMap_append, h1, h2, h3, h4,
    h5, h6, List.append_nil]
  exact ⟨hfail, rfl, trivial, trivial, rfl⟩

/-- C8 (amended) on the built-in descriptor with the optional rail present,
when the DSI transport fails from its third transfer on. -/
theorem C8_aborted_prepare_state_witness :
    (nt36860_prepare (world_dsi_fails_from 2) boot session_builtin_vddi []).1 ≠ 0 ∧
    rail_enables
        (appended [] (nt36860_prepare (world_dsi_fails_from 2) boot session_builtin_vddi []).2)
      = [Rail.vddi, Rail.avdd, Rail.avee] ∧
    rail_disables
        (appended [] (nt36860_prepare (world_dsi_fails_from 2) boot session_builtin_vddi []).2)
      = [] ∧
    reset_writes
        (appended [] (nt36860_prepare (world_dsi_fails_from 2) boot session_builtin_vddi []).2)
      = [1, 0, 1, 0] ∧
    (reset_writes
        (appended [] (nt36860_prepare (world_dsi_fails_from 2) boot session_builtin_vddi []).2)
      ).getLast? = some 0 :=
  C8_aborted_prepare_state (world_dsi_fails_from 2) boot session_builtin_vddi [] 2
    ⟨fun _ => rfl, rfl, rfl⟩ (by decide)
    (by intro j hj; simp [world_dsi_fails_from, dsi_events, hj])
    (by decide)

/-- C9 (the claim as stated fails): on a session on which prepare was never
called (empty log), `nt36860_enable` sends the display-on command and returns
0, and `nt36860_disable` sends the display-off command and returns 0; the same
happens for enable right after a prepare that failed at the `avdd` rail. -/
theorem C9_enable_disable_have_no_phase_guard :
    dsi_events (nt36860_enable world_ok []).2 = [Event.mipi_dsi_dcs_set_display_on] ∧
    (nt36860_enable world_ok []).1 = 0 ∧
    dsi_events (nt36860_disable world_ok []).2 = [Event.mipi_dsi_dcs_set_display_off] ∧
    (nt36860_disable world_ok []).1 = 0 ∧
    (nt36860_prepare world_all_fail boot session_builtin []).1 = -ETIMEDOUT ∧
    dsi_events (nt36860_prepare world_all_fail boot session_builtin []).2 = [] ∧
    dsi_events (nt36860_enable world_all_fail
        (nt36860_prepare world_all_fail boot session_builtin []).2).2
      = [Event.mipi_dsi_dcs_set_display_on] ∧
    (nt36860_enable world_all_fail
        (nt36860_prepare world_all_fail boot session_builtin []).2).1 = 0 := by
  decide

/-- C9 (amended): `nt36860_enable` and `nt36860_disable` keep no phase and
have no guard.  Whatever calls came before (any log), enable sends the
display-on command, waits 40 ms and returns 0, and disable sends the
display-off command and returns what that command returned. -/
theorem C9_enable_disable_unguarded (w : World) (log : List Event) :
    nt36860_enable w log
      = (0, log ++ [Event.mipi_dsi_dcs_set_display_on, Event.msleep 40]) ∧
    nt36860_disable w log
      = (w.dsi (dsi_events log).length Event.mipi_dsi_dcs_set_display_off,
         log ++ [Event.mipi_dsi_dcs_set_display_off]) := by
  constructor
  · simp [nt36860_enable, dsi_call, msleep]
  · rfl

end NT36860
